import Mathlib

/-!
# Installment payment API — shallow embedding

A shallow embedding of the settlement and notification engine of the
installment-payment service (`backend/app/crud.py`, `backend/celery_worker.py`,
`backend/app/api/endpoints/installments.py`).  Monetary amounts are embedded as
rationals, timestamps as integers (days), the database session as an explicit
record of tables, and the external payment processor / webhook destinations as
oracle functions.  Fresh primary keys (uuid4 in the source) are supplied as
parameters.
-/

namespace InstallmentAPI

/-- `models.Wallet`: customer-scoped store of funds. -/
structure Wallet where
  id : String
  customer_id : String
  balance : Rat
  currency : String
deriving DecidableEq

/-- `models.WalletLedger`: immutable record of one balance mutation. -/
structure LedgerEntry where
  wallet_id : String
  transaction_type : String
  amount : Rat
  description : Option String
  reference_id : Option String
  balance_before : Rat
  balance_after : Rat
deriving DecidableEq

/-- `models.InstallmentOrder`: a payment plan. -/
structure InstallmentOrder where
  id : String
  customer_id : String
  amount : Rat
  currency : String
  installment_count : Nat
  installment_amount : Rat
  status : String
deriving DecidableEq

/-- `models.Installment`: one scheduled payment within an order.
`due_date` is a timestamp in days. -/
structure Installment where
  id : String
  order_id : String
  installment_number : Nat
  amount : Rat
  due_date : Int
  status : String
deriving DecidableEq

/-- `models.Charge`: one settlement attempt.  `split_instructions` is an opaque
JSON blob, kept abstract as an optional string. -/
structure Charge where
  id : String
  customer_id : String
  amount : Rat
  currency : String
  status : String
  payment_method : Option String
  external_charge_id : Option String
  installment_id : Option String
  installment_order_id : Option String
  split_instructions : Option String
  created_at : Int
deriving DecidableEq

/-- The webhook payload built by `send_webhook_event` (a fixed-shape dict in
the source). -/
structure WebhookPayload where
  event_type : String
  charge_id : String
  customer_id : String
  amount : Rat
  currency : String
  status : String
  payment_method : Option String
  external_charge_id : Option String
  split_instructions : Option String
  created_at : Int
  installment_id : Option String
  installment_order_id : Option String
deriving DecidableEq

/-- `models.WebhookLog`: audit record of one notification dispatch. -/
structure WebhookLog where
  id : String
  event_type : String
  payload : WebhookPayload
  status : String
  processed_at : Option Int
  error_message : Option String
deriving DecidableEq

/-- The database session: one list per table. -/
structure DB where
  wallets : List Wallet
  ledger : List LedgerEntry
  orders : List InstallmentOrder
  installments : List Installment
  charges : List Charge
  webhook_logs : List WebhookLog
deriving DecidableEq

/-- Python truthiness of an optional string (`if s:`): `None` and `""` are
falsy. -/
def strTruthy : Option String → Bool
  | none => false
  | some s => !(s == "")

/-- Python truthiness of an optional float (`if x:`): `None` and `0.0` are
falsy. -/
def ratTruthy : Option Rat → Bool
  | none => false
  | some q => !(q == 0)

/-- Python `int()` applied to a rational: truncation toward zero. -/
def pyInt (q : Rat) : Int :=
  if 0 ≤ q then q.floor else q.ceil

/-- The ORM `db.commit()` on a mutated row: replace every row whose key equals
`k` by the mutated row `x'`. -/
def setBy {α : Type} (key : α → String) (l : List α) (k : String) (x' : α) : List α :=
  l.map (fun x => if key x == k then x' else x)

/-- `crud.get_wallet`: first wallet of the given customer. -/
def get_wallet (db : DB) (customer_id : String) : Option Wallet :=
  db.wallets.find? (fun w => w.customer_id == customer_id)

/-- `crud.get_wallet_by_id`. -/
def get_wallet_by_id (db : DB) (wallet_id : String) : Option Wallet :=
  db.wallets.find? (fun w => w.id == wallet_id)

/-- `crud.get_charge`. -/
def get_charge (db : DB) (charge_id : String) : Option Charge :=
  db.charges.find? (fun c => c.id == charge_id)

/-- `crud.get_installment_order`. -/
def get_installment_order (db : DB) (order_id : String) : Option InstallmentOrder :=
  db.orders.find? (fun o => o.id == order_id)

/-- `crud.get_installments_by_order`: all installments whose `order_id` equals
the given id. -/
def get_installments_by_order (db : DB) (order_id : String) : List Installment :=
  db.installments.filter (fun i => i.order_id == order_id)

/-- `crud.get_due_installments`: installments with status `pending` and
`due_date ≤ now`. -/
def get_due_installments (db : DB) (now : Int) : List Installment :=
  db.installments.filter (fun i => i.status == "pending" && decide (i.due_date ≤ now))

/-- `crud.update_wallet_balance`: looks the wallet up by id; `credit` adds the
amount unconditionally, `debit` fails (returns `none`, no mutation) when
`balance < amount`; on success one ledger entry recording balance
before/after is appended in the same transaction.  Any other transaction type
leaves the balance unchanged but still appends an entry, as in the source. -/
def update_wallet_balance (db : DB) (wallet_id : String) (amount : Rat)
    (transaction_type : String) (description : Option String)
    (reference_id : Option String) : Option Wallet × DB :=
  match get_wallet_by_id db wallet_id with
  | none => (none, db)
  | some w =>
    if transaction_type == "credit" then
      let w' : Wallet := { w with balance := w.balance + amount }
      let e : LedgerEntry :=
        ⟨wallet_id, transaction_type, amount, description, reference_id, w.balance, w'.balance⟩
      (some w', { db with wallets := setBy Wallet.id db.wallets wallet_id w',
                          ledger := db.ledger ++ [e] })
    else if transaction_type == "debit" then
      if w.balance < amount then
        (none, db)
      else
        let w' : Wallet := { w with balance := w.balance - amount }
        let e : LedgerEntry :=
          ⟨wallet_id, transaction_type, amount, description, reference_id, w.balance, w'.balance⟩
        (some w', { db with wallets := setBy Wallet.id db.wallets wallet_id w',
                            ledger := db.ledger ++ [e] })
    else
      let e : LedgerEntry :=
        ⟨wallet_id, transaction_type, amount, description, reference_id, w.balance, w.balance⟩
      (some w, { db with ledger := db.ledger ++ [e] })

/-- `crud.update_charge_status`: sets `status` unconditionally; the optional
`payment_method` / `external_charge_id` are applied only when truthy. -/
def update_charge_status (db : DB) (charge_id status : String)
    (payment_method external_charge_id : Option String) : Option Charge × DB :=
  match get_charge db charge_id with
  | none => (none, db)
  | some c =>
    let c1 : Charge := { c with status := status }
    let c2 : Charge :=
      if strTruthy payment_method then { c1 with payment_method := payment_method } else c1
    let c3 : Charge :=
      if strTruthy external_charge_id then
        { c2 with external_charge_id := external_charge_id } else c2
    (some c3, { db with charges := setBy Charge.id db.charges charge_id c3 })

/-- `crud.create_charge` (fresh uuid supplied as `fresh`). -/
def create_charge (fresh : String) (now : Int) (db : DB) (customer_id : String)
    (amount : Rat) (currency : String)
    (installment_id installment_order_id split_instructions : Option String) :
    Charge × DB :=
  let c : Charge :=
    { id := fresh, customer_id := customer_id, amount := amount, currency := currency,
      status := "pending", payment_method := none, external_charge_id := none,
      installment_id := installment_id, installment_order_id := installment_order_id,
      split_instructions := split_instructions, created_at := now }
  (c, { db with charges := db.charges ++ [c] })

/-- `crud.create_webhook_log`: new row with status `pending` (fresh uuid
supplied as `fresh`). -/
def create_webhook_log (fresh : String) (db : DB) (event_type : String)
    (payload : WebhookPayload) : WebhookLog × DB :=
  let l : WebhookLog :=
    { id := fresh, event_type := event_type, payload := payload,
      status := "pending", processed_at := none, error_message := none }
  (l, { db with webhook_logs := db.webhook_logs ++ [l] })

/-- `crud.update_webhook_log_status`: sets the status, stamps `processed_at`
when the status is `processed`, and records the error message when truthy. -/
def update_webhook_log_status (now : Int) (db : DB) (webhook_id status : String)
    (error_message : Option String) : Option WebhookLog × DB :=
  match db.webhook_logs.find? (fun l => l.id == webhook_id) with
  | none => (none, db)
  | some l =>
    let l1 : WebhookLog := { l with status := status }
    let l2 : WebhookLog :=
      if status == "processed" then { l1 with processed_at := some now } else l1
    let l3 : WebhookLog :=
      if strTruthy error_message then { l2 with error_message := error_message } else l2
    (some l3, { db with webhook_logs := setBy WebhookLog.id db.webhook_logs webhook_id l3 })

/-- Outcome of one call to the external processor (`stripe.Charge.create`):
either a created charge with its reference id, or a raised `StripeError`. -/
inductive StripeResult where
  | success (stripe_id : String)
  | failure (msg : String)
deriving DecidableEq

/-- Result value of `process_charge` (the dict it returns). -/
inductive ProcResult where
  | chargeNotFound
  | walletPaid
  | externalPaid (stripe_id : String)
  | externalFailed (msg : String)
deriving DecidableEq

/-- Observable outcome of one `process_charge` run: the final session state,
the returned value, the amounts (in currency units) for which the external
processor was called — the wire call passes `pyInt (amount * 100)` minor
units — and the webhook events enqueued via `send_webhook_event.delay`. -/
structure ProcOutcome where
  db : DB
  result : ProcResult
  external_calls : List Rat
  webhooks : List (String × String)
deriving DecidableEq

/-- The external-settlement tail of `process_charge`: the `stripe.Charge.create`
call for `remaining` and, on `StripeError`, the refund branch, which re-reads
the live wallet row and credits its *current* balance when it is below the
charge amount, then marks the charge failed. -/
def external_phase (stripe : Int → StripeResult) (db : DB)
    (charge_id : String) (charge_amount remaining : Rat)
    (wOpt : Option String) : ProcOutcome :=
  match stripe (pyInt (remaining * 100)) with
  | .success sid =>
    let db1 := (update_charge_status db charge_id "succeeded" (some "external") (some sid)).2
    ⟨db1, .externalPaid sid, [remaining], [("charge.succeeded", charge_id)]⟩
  | .failure msg =>
    let db1 :=
      match wOpt with
      | none => db
      | some wid =>
        match get_wallet_by_id db wid with
        | none => db
        | some w =>
          if w.balance < charge_amount then
            (update_wallet_balance db wid w.balance "credit"
              (some ("Refund for failed charge " ++ charge_id)) (some charge_id)).2
          else db
    let db2 := (update_charge_status db1 charge_id "failed" (some "external") none).2
    ⟨db2, .externalFailed msg, [remaining], [("charge.failed", charge_id)]⟩

/-- `celery_worker.process_charge`: the settlement waterfall.  Wallet funds
first (full cover → method `wallet`, stop; partial cover → debit the whole
balance), then the external processor for the remaining amount. -/
def process_charge (stripe : Int → StripeResult) (db : DB) (charge_id : String) :
    ProcOutcome :=
  match get_charge db charge_id with
  | none => ⟨db, .chargeNotFound, [], []⟩
  | some charge =>
    match get_wallet db charge.customer_id with
    | some wallet =>
      if 0 < wallet.balance then
        if charge.amount ≤ wallet.balance then
          let db1 := (update_wallet_balance db wallet.id charge.amount "debit"
            (some ("Payment for charge " ++ charge_id)) (some charge_id)).2
          let db2 := (update_charge_status db1 charge_id "succeeded" (some "wallet") none).2
          ⟨db2, .walletPaid, [], [("charge.succeeded", charge_id)]⟩
        else
          let remaining := charge.amount - wallet.balance
          let db1 := (update_wallet_balance db wallet.id wallet.balance "debit"
            (some ("Partial payment for charge " ++ charge_id)) (some charge_id)).2
          external_phase stripe db1 charge_id charge.amount remaining (some wallet.id)
      else
        external_phase stripe db charge_id charge.amount charge.amount (some wallet.id)
    | none =>
      external_phase stripe db charge_id charge.amount charge.amount none

/-- Python `str.strip()`: drop whitespace from both ends. -/
def pyStrip (s : String) : String :=
  ⟨((s.data.dropWhile Char.isWhitespace).reverse.dropWhile Char.isWhitespace).reverse⟩

/-- Splitting a character list on a separator, Python `str.split` style:
every separator occurrence splits, empty pieces are kept. -/
def splitCharsOn : List Char → Char → List (List Char)
  | [], _ => [[]]
  | ch :: rest, sep =>
    if ch == sep then [] :: splitCharsOn rest sep
    else
      match splitCharsOn rest sep with
      | [] => [[ch]]
      | h :: t => (ch :: h) :: t

/-- Python `s.split(",")`. -/
def pySplit (s : String) (sep : Char) : List String :=
  (splitCharsOn s.data sep).map (fun cs => ⟨cs⟩)

/-- Outcome of one HTTP POST to a webhook destination: a response, or a raised
exception (timeout, connection error). -/
inductive HttpResult where
  | resp (code : Nat) (text : String)
  | exn (msg : String)
deriving DecidableEq

/-- One observable delivery-relevant event of `send_webhook_event`, in
execution order: the durable log row creation, or an HTTP POST. -/
inductive WhEv where
  | logCreated (log : WebhookLog)
  | posted (url : String) (payload : WebhookPayload)
deriving DecidableEq

/-- The delivery loop of `send_webhook_event`: for each non-blank URL, POST the
payload and update the (single) log row in place with that attempt's result. -/
def wh_deliver (http : String → HttpResult) (now : Int) (logId : String)
    (payload : WebhookPayload) : List String → DB → DB × List WhEv
  | [], db => (db, [])
  | url :: rest, db =>
    if pyStrip url == "" then wh_deliver http now logId payload rest db
    else
      let db1 :=
        match http (pyStrip url) with
        | .resp code text =>
          if code == 200 then (update_webhook_log_status now db logId "processed" none).2
          else
            (update_webhook_log_status now db logId "failed"
              (some ("HTTP " ++ toString code ++ ": " ++ text))).2
        | .exn msg => (update_webhook_log_status now db logId "failed" (some msg)).2
      let rec1 := wh_deliver http now logId payload rest db1
      (rec1.1, WhEv.posted (pyStrip url) payload :: rec1.2)

/-- The fixed-shape payload `send_webhook_event` builds from the charge. -/
def mkPayload (event_type : String) (c : Charge) : WebhookPayload :=
  { event_type := event_type, charge_id := c.id, customer_id := c.customer_id,
    amount := c.amount, currency := c.currency, status := c.status,
    payment_method := c.payment_method, external_charge_id := c.external_charge_id,
    split_instructions := c.split_instructions, created_at := c.created_at,
    installment_id := c.installment_id, installment_order_id := c.installment_order_id }

/-- `celery_worker.send_webhook_event`: loads the charge, persists one
WebhookLog row with status `pending` and the full payload, then POSTs to every
non-blank URL of the comma-separated `cfg` (the `WEBHOOK_URLS` environment
variable), updating the same log row per attempt.  Returns the log id on
success together with the final state and the event trace. -/
def send_webhook_event (http : String → HttpResult) (cfg : String)
    (logId : String) (now : Int) (db : DB) (event_type charge_id : String) :
    Option String × DB × List WhEv :=
  match get_charge db charge_id with
  | none => (none, db, [])
  | some charge =>
    let payload := mkPayload event_type charge
    let lg := create_webhook_log logId db event_type payload
    let urls := pySplit cfg ','
    let res := wh_deliver http now lg.1.id payload urls lg.2
    (some lg.1.id, res.1, WhEv.logCreated lg.1 :: res.2)

/-- Result value of `schedule_installment_charge`. -/
inductive ScheduleResult where
  | error (msg : String)
  | success (charge_id : String)
deriving DecidableEq

/-- `celery_worker.schedule_installment_charge`: note that it calls
`crud.get_installments_by_order` with its `installment_id` argument, so the
lookup filters installments by `order_id = installment_id`.  An empty result
yields the structured error; otherwise a charge is created for the first
installment found (ORM traversal `installment.order` modelled as an order
lookup, with a missing order surfacing as the caught-exception error). -/
def schedule_installment_charge (fresh : String) (now : Int) (db : DB)
    (installment_id : String) : ScheduleResult × DB :=
  match get_installments_by_order db installment_id with
  | [] => (.error "Installment not found", db)
  | installment :: _ =>
    match get_installment_order db installment.order_id with
    | none => (.error "order not found", db)
    | some o =>
      let cr := create_charge fresh now db o.customer_id installment.amount o.currency
        (some installment.id) (some installment.order_id) none
      (.success cr.1.id, cr.2)

/-- The loop body of `process_due_installments`: one charge per due
installment, each queued for `process_charge` (returned as the queue).  A
missing owning order raises, which the task catches — modelled as `none`. -/
def process_due_go (freshIds : Nat → String) (now : Int) :
    List Installment → Nat → DB → List String → Option (DB × List String)
  | [], _, db, acc => some (db, acc.reverse)
  | inst :: rest, n, db, acc =>
    match get_installment_order db inst.order_id with
    | none => none
    | some o =>
      let cr := create_charge (freshIds n) now db o.customer_id inst.amount o.currency
        (some inst.id) (some inst.order_id) none
      process_due_go freshIds now rest (n + 1) cr.2 (cr.1.id :: acc)

/-- `celery_worker.process_due_installments`: selects all pending installments
whose due date has passed, creates one charge per installment and queues each
for settlement.  The installments themselves are not modified. -/
def process_due_installments (freshIds : Nat → String) (now : Int) (db : DB) :
    Option (DB × List String) :=
  process_due_go freshIds now (get_due_installments db now) 0 db []

/-- `schemas.InstallmentOrderCreate`: the order-creation request body. -/
structure OrderCreate where
  customer_id : String
  amount : Rat
  currency : String
  installment_count : Nat
  installment_amount : Option Rat
deriving DecidableEq

/-- `crud.create_installment_order`: computes the per-installment amount as
`amount / count` when the supplied one is falsy (`None` or `0.0`), then
inserts the order row. -/
def crud_create_installment_order (orderId : String) (db : DB) (od : OrderCreate) :
    InstallmentOrder × DB :=
  let instAmt :=
    if ratTruthy od.installment_amount then od.installment_amount.getD 0
    else od.amount / (od.installment_count : Rat)
  let o : InstallmentOrder :=
    { id := orderId, customer_id := od.customer_id, amount := od.amount,
      currency := od.currency, installment_count := od.installment_count,
      installment_amount := instAmt, status := "pending" }
  (o, { db with orders := db.orders ++ [o] })

/-- `crud.create_installments_for_order`: rows numbered `1..count`, each due
`now + 30 * i` days, status `pending`, inserted in bulk. -/
def create_installments_for_order (instIds : Nat → String) (now : Int) (db : DB)
    (order_id : String) (installment_amount : Rat) (count : Nat) :
    List Installment × DB :=
  let insts := (List.range count).map (fun k =>
    ({ id := instIds (k + 1), order_id := order_id, installment_number := k + 1,
       amount := installment_amount, due_date := now + 30 * ((k : Int) + 1),
       status := "pending" } : Installment))
  (insts, { db with installments := db.installments ++ insts })

/-- Result of the order-creation endpoint: the HTTP 400 rejection, or the
created order with its installments and the scheduled first-installment
background task (installment id, due date). -/
inductive CreateOrderResult where
  | badRequest (detail : String)
  | created (order : InstallmentOrder) (installments : List Installment)
      (scheduled : Option (String × Int))
deriving DecidableEq

/-- `installments.create_installment_order` (the POST /orders endpoint):
validates `installment_amount * count ≈ amount` (tolerance 0.01) only when the
supplied per-installment amount is truthy, rejecting with HTTP 400 before any
row is created; otherwise creates the order, its installments, and schedules
the first-installment charge as a background task. -/
def create_installment_order_endpoint (orderId : String) (instIds : Nat → String)
    (now : Int) (db : DB) (od : OrderCreate) : CreateOrderResult × DB :=
  if ratTruthy od.installment_amount &&
      decide ((1 : Rat) / 100 <
        |od.installment_amount.getD 0 * (od.installment_count : Rat) - od.amount|) then
    (.badRequest "Installment amount * count must equal total amount", db)
  else
    let ord := crud_create_installment_order orderId db od
    let ins := create_installments_for_order instIds now ord.2 ord.1.id
      ord.1.installment_amount ord.1.installment_count
    let sched :=
      match ins.1 with
      | [] => none
      | i0 :: _ => some (i0.id, i0.due_date)
    (.created ord.1 ins.1 sched, ins.2)

/-! ## Helper lemmas about row lookup and in-place update -/

theorem find_setBy_same {α : Type} (key : α → String) (l : List α) (k : String)
    (x x' : α) (hk : key x' = k)
    (hf : l.find? (fun y => key y == k) = some x) :
    (setBy key l k x').find? (fun y => key y == k) = some x' := by
  unfold setBy
  rw [List.find?_map]
  have hcomp : ((fun y => key y == k) ∘ fun x => if key x == k then x' else x) =
      fun y => key y == k := by
    funext y
    by_cases h : key y == k
    · have hy : key y = k := by simpa using h
      simp [hy, hk]
    · have hy : ¬key y = k := by simpa using h
      simp [hy]
  rw [hcomp, hf]
  simp only [Option.map, if_pos (List.find?_some hf)]

theorem setBy_of_not_mem {α : Type} (key : α → String) (l : List α) (k : String)
    (x' : α) (h : ∀ y ∈ l, key y ≠ k) : setBy key l k x' = l := by
  unfold setBy
  induction l with
  | nil => rfl
  | cons a t ih =>
    have ha : ¬(key a == k) = true := by
      simpa using h a (List.mem_cons_self a t)
    simp only [List.map_cons, if_neg ha]
    rw [ih (fun y hy => h y (List.mem_cons_of_mem a hy))]

theorem setBy_append_singleton {α : Type} (key : α → String) (l : List α)
    (k : String) (x x' : α) (h : ∀ y ∈ l, key y ≠ k) (hx : (key x == k) = true) :
    setBy key (l ++ [x]) k x' = l ++ [x'] := by
  unfold setBy
  rw [List.map_append]
  have h1 : l.map (fun y => if key y == k then x' else y) = l := by
    have := setBy_of_not_mem key l k x' h
    simpa [setBy] using this
  rw [h1]
  simp only [List.map_cons, List.map_nil, if_pos hx]

/-! ## Ledger accounting -/

/-- Signed value of a ledger entry: credits count positively, debits
negatively. -/
def entryDelta (e : LedgerEntry) : Rat :=
  if e.transaction_type == "credit" then e.amount
  else if e.transaction_type == "debit" then -e.amount else 0

/-- Signed sum (credits minus debits) of one wallet's ledger entries. -/
def signedSum (l : List LedgerEntry) (wid : String) : Rat :=
  ((l.filter (fun e => e.wallet_id == wid)).map entryDelta).sum

/-- All wallet rows have pairwise-distinct primary keys. -/
def uniqueWalletIds (db : DB) : Prop :=
  db.wallets.Pairwise (fun a b => a.id ≠ b.id)

/-- Every wallet's balance equals the net signed sum of its ledger entries. -/
def walletInv (db : DB) : Prop :=
  ∀ w ∈ db.wallets, w.balance = signedSum db.ledger w.id

theorem signedSum_append (l₁ l₂ : List LedgerEntry) (wid : String) :
    signedSum (l₁ ++ l₂) wid = signedSum l₁ wid + signedSum l₂ wid := by
  simp [signedSum, List.filter_append]

theorem signedSum_singleton_same (e : LedgerEntry) (wid : String)
    (h : e.wallet_id = wid) : signedSum [e] wid = entryDelta e := by
  simp [signedSum, List.filter, h]

theorem signedSum_singleton_other (e : LedgerEntry) (wid : String)
    (h : e.wallet_id ≠ wid) : signedSum [e] wid = 0 := by
  have hb : (e.wallet_id == wid) = false := by simpa using h
  simp [signedSum, List.filter, hb]

theorem eq_of_mem_find_unique {l : List Wallet} {wid : String} {w y : Wallet}
    (hu : l.Pairwise (fun a b => a.id ≠ b.id))
    (hf : l.find? (fun x => x.id == wid) = some w)
    (hy : y ∈ l) (hyid : y.id = wid) : y = w := by
  induction l with
  | nil => simp at hf
  | cons a t ih =>
    rcases List.pairwise_cons.mp hu with ⟨ha, ht⟩
    by_cases hid : a.id = wid
    · rw [List.find?_cons_of_pos _ (by simp [hid])] at hf
      cases hf
      rcases List.mem_cons.mp hy with rfl | hyt
      · rfl
      · exact absurd (hyid.trans hid.symm) (ha y hyt).symm
    · rw [List.find?_cons_of_neg _ (by simp [hid])] at hf
      rcases List.mem_cons.mp hy with rfl | hyt
      · exact absurd hyid hid
      · exact ih ht hf hyt

theorem uniqueIds_setBy (l : List Wallet) (wid : String) (w' : Wallet)
    (hid : w'.id = wid) (hu : l.Pairwise (fun a b => a.id ≠ b.id)) :
    (setBy Wallet.id l wid w').Pairwise (fun a b => a.id ≠ b.id) := by
  unfold setBy
  rw [List.pairwise_map]
  refine hu.imp_of_mem ?_
  intro a b _ _ hab
  have hkey : ∀ x : Wallet, (if (x.id == wid) = true then w' else x).id = x.id := by
    intro x
    by_cases hx : x.id = wid
    · simp [hx, hid]
    · simp [hx]
  intro h
  exact hab (((hkey a).symm.trans h).trans (hkey b))

/-- Core preservation step: applying one successful ledgered mutation to the
wallet found by id keeps every wallet's balance equal to its signed ledger
sum. -/
theorem walletInv_step (db : DB) (wid : String) (w w' : Wallet) (e : LedgerEntry)
    (hf : get_wallet_by_id db wid = some w)
    (hu : uniqueWalletIds db) (hinv : walletInv db)
    (hwid : w'.id = w.id) (hewid : e.wallet_id = wid)
    (hbal : w'.balance = w.balance + entryDelta e) :
    walletInv { db with wallets := setBy Wallet.id db.wallets wid w',
                        ledger := db.ledger ++ [e] } := by
  have hfind : db.wallets.find? (fun x => x.id == wid) = some w := hf
  have hwidw : w.id = wid := by simpa using List.find?_some hfind
  intro x hx
  simp only [setBy] at hx
  rcases List.mem_map.mp hx with ⟨y, hy, hxy⟩
  by_cases hc : (y.id == wid) = true
  · have hyid : y.id = wid := by simpa using hc
    have hyw : y = w := eq_of_mem_find_unique hu hfind hy hyid
    rw [if_pos hc] at hxy
    subst hxy
    show w'.balance = signedSum (db.ledger ++ [e]) w'.id
    rw [hwid, hwidw, signedSum_append, signedSum_singleton_same e wid hewid]
    have hw : w.balance = signedSum db.ledger w.id := hinv w (hyw ▸ hy)
    rw [hbal, hw, hwidw]
  · rw [if_neg hc] at hxy
    subst hxy
    have hyid : y.id ≠ wid := by simpa using hc
    show y.balance = signedSum (db.ledger ++ [e]) y.id
    rw [signedSum_append, signedSum_singleton_other e y.id (fun h => hyid (hewid ▸ h.symm))]
    rw [hinv y hy]
    ring

/-! ## Projection lemmas for the settlement waterfall -/

theorem update_charge_status_wallets (d : DB) (cid st : String)
    (pm ecid : Option String) :
    (update_charge_status d cid st pm ecid).2.wallets = d.wallets := by
  cases hg : get_charge d cid with
  | none => simp [update_charge_status, hg]
  | some c => simp [update_charge_status, hg]

theorem update_charge_status_ledger (d : DB) (cid st : String)
    (pm ecid : Option String) :
    (update_charge_status d cid st pm ecid).2.ledger = d.ledger := by
  cases hg : get_charge d cid with
  | none => simp [update_charge_status, hg]
  | some c => simp [update_charge_status, hg]

/-- The external-settlement tail always makes exactly one call, for the
remaining amount, and any ledger entries it appends are credits (the refund
branch only ever credits). -/
theorem external_phase_ledger_credits (stripe : Int → StripeResult) (d : DB)
    (cid : String) (A r : Rat) (wOpt : Option String) :
    (external_phase stripe d cid A r wOpt).external_calls = [r] ∧
    ∃ tail, (external_phase stripe d cid A r wOpt).db.ledger = d.ledger ++ tail ∧
      ∀ e ∈ tail, e.transaction_type = "credit" := by
  unfold external_phase
  cases hst : stripe (pyInt (r * 100)) with
  | success sid =>
    exact ⟨by simp, [], by simp [update_charge_status_ledger], by simp⟩
  | failure msg =>
    rcases wOpt with _ | wid
    · exact ⟨by simp, [], by simp [update_charge_status_ledger], by simp⟩
    · cases hrw : get_wallet_by_id d wid with
      | none =>
        exact ⟨by simp [hrw], [], by simp [hrw, update_charge_status_ledger], by simp⟩
      | some w2 =>
        by_cases hlt2 : w2.balance < A
        · have h2 : update_wallet_balance d wid w2.balance "credit"
              (some ("Refund for failed charge " ++ cid)) (some cid) =
              (some { w2 with balance := w2.balance + w2.balance },
               { d with
                   wallets := setBy Wallet.id d.wallets wid
                     { w2 with balance := w2.balance + w2.balance },
                   ledger := d.ledger ++ [⟨wid, "credit", w2.balance,
                     some ("Refund for failed charge " ++ cid), some cid,
                     w2.balance, w2.balance + w2.balance⟩] }) := by
            simp [update_wallet_balance, hrw]
          refine ⟨by simp [hrw, hlt2, h2],
            [⟨wid, "credit", w2.balance,
              some ("Refund for failed charge " ++ cid), some cid,
              w2.balance, w2.balance + w2.balance⟩], ?_, by simp⟩
          simp [hrw, hlt2, h2, update_charge_status_ledger]
        · exact ⟨by simp [hrw, hlt2], [],
            by simp [hrw, hlt2, update_charge_status_ledger], by simp⟩

/-- If the wallet passed into the external-settlement tail currently has
balance 0 and the charge amount is positive, the wallet still has balance 0
afterwards (the refund branch credits the post-debit balance, i.e. 0). -/
theorem external_phase_wallet_zero (stripe : Int → StripeResult) (d : DB)
    (cid : String) (A r : Rat) (wid : String) (w1 : Wallet)
    (hw1 : get_wallet_by_id d wid = some w1) (hz : w1.balance = 0) (hA : 0 < A) :
    ∃ w', get_wallet_by_id (external_phase stripe d cid A r (some wid)).db wid =
      some w' ∧ w'.balance = 0 := by
  unfold external_phase
  cases hst : stripe (pyInt (r * 100)) with
  | success sid =>
    refine ⟨w1, ?_, hz⟩
    show (update_charge_status d cid "succeeded" (some "external")
      (some sid)).2.wallets.find? (fun x => x.id == wid) = some w1
    rw [update_charge_status_wallets]
    exact hw1
  | failure msg =>
    have hlt : w1.balance < A := by rw [hz]; exact hA
    have h2 : update_wallet_balance d wid w1.balance "credit"
        (some ("Refund for failed charge " ++ cid)) (some cid) =
        (some { w1 with balance := w1.balance + w1.balance },
         { d with
             wallets := setBy Wallet.id d.wallets wid
               { w1 with balance := w1.balance + w1.balance },
             ledger := d.ledger ++ [⟨wid, "credit", w1.balance,
               some ("Refund for failed charge " ++ cid), some cid,
               w1.balance, w1.balance + w1.balance⟩] }) := by
      simp [update_wallet_balance, hw1]
    refine ⟨{ w1 with balance := w1.balance + w1.balance }, ?_, by rw [hz]; simp⟩
    have hwidw : w1.id = wid := by
      simpa using List.find?_some (hw1 : d.wallets.find? (fun x => x.id == wid) = some w1)
    have hfs := find_setBy_same Wallet.id d.wallets wid w1
      { w1 with balance := w1.balance + w1.balance } hwidw hw1
    simp only [hw1, hlt, if_pos, h2]
    show (update_charge_status _ cid "failed" (some "external")
      none).2.wallets.find? (fun x => x.id == wid) = _
    rw [update_charge_status_wallets]
    exact hfs

/-! ## Claim theorems -/

/-- C1: waterfall correctness of settlement.  For a charge of amount `A > 0`
processed by `process_charge` against its customer's wallet of balance `W`:
if `W ≥ A` the wallet is debited exactly `A` and the external processor is
never called, the charge succeeding with payment method `wallet`; if
`0 < W < A` the wallet is debited exactly its whole balance `W` (one debit
ledger entry of amount `W`, post-state balance 0) and the external processor
is called for exactly `A − W`; if the wallet is absent or `W ≤ 0` no debit is
taken (any ledger entries appended are credits) and the external processor is
called for exactly `A`. -/
theorem C1_waterfall_correctness (stripe : Int → StripeResult) (db : DB)
    (cid : String) (c : Charge)
    (hc : get_charge db cid = some c) (hA : 0 < c.amount) :
    (∀ w, get_wallet db c.customer_id = some w →
      get_wallet_by_id db w.id = some w →
      c.amount ≤ w.balance →
      (process_charge stripe db cid).external_calls = [] ∧
      (process_charge stripe db cid).result = .walletPaid ∧
      get_wallet_by_id (process_charge stripe db cid).db w.id =
        some { w with balance := w.balance - c.amount } ∧
      (process_charge stripe db cid).db.ledger =
        db.ledger ++ [⟨w.id, "debit", c.amount, some ("Payment for charge " ++ cid),
          some cid, w.balance, w.balance - c.amount⟩] ∧
      get_charge (process_charge stripe db cid).db cid =
        some { c with status := "succeeded", payment_method := some "wallet" }) ∧
    (∀ w, get_wallet db c.customer_id = some w →
      get_wallet_by_id db w.id = some w →
      0 < w.balance → w.balance < c.amount →
      (process_charge stripe db cid).external_calls = [c.amount - w.balance] ∧
      (∃ w', get_wallet_by_id (process_charge stripe db cid).db w.id = some w' ∧
        w'.balance = 0) ∧
      (∃ tail, (process_charge stripe db cid).db.ledger =
        db.ledger ++ ⟨w.id, "debit", w.balance,
          some ("Partial payment for charge " ++ cid), some cid,
          w.balance, w.balance - w.balance⟩ :: tail)) ∧
    ((get_wallet db c.customer_id = none ∨
        ∃ w, get_wallet db c.customer_id = some w ∧ w.balance ≤ 0) →
      (process_charge stripe db cid).external_calls = [c.amount] ∧
      ∃ tail, (process_charge stripe db cid).db.ledger = db.ledger ++ tail ∧
        ∀ e ∈ tail, e.transaction_type = "credit") := by
  have hc' : db.charges.find? (fun x => x.id == cid) = some c := hc
  have hcid : c.id = cid := by simpa using List.find?_some hc'
  refine ⟨?_, ?_, ?_⟩
  · -- (a) full cover
    intro w hw hwid hcov
    have hwpos : 0 < w.balance := lt_of_lt_of_le hA hcov
    have h1 : update_wallet_balance db w.id c.amount "debit"
        (some ("Payment for charge " ++ cid)) (some cid) =
        (some { w with balance := w.balance - c.amount },
         { db with
             wallets := setBy Wallet.id db.wallets w.id
               { w with balance := w.balance - c.amount },
             ledger := db.ledger ++ [⟨w.id, "debit", c.amount,
               some ("Payment for charge " ++ cid), some cid,
               w.balance, w.balance - c.amount⟩] }) := by
      simp [update_wallet_balance, hwid, not_lt.mpr hcov]
    have hpc : process_charge stripe db cid =
        ⟨{ db with
             wallets := setBy Wallet.id db.wallets w.id
               { w with balance := w.balance - c.amount },
             ledger := db.ledger ++ [⟨w.id, "debit", c.amount,
               some ("Payment for charge " ++ cid), some cid,
               w.balance, w.balance - c.amount⟩],
             charges := setBy Charge.id db.charges cid
               { c with status := "succeeded", payment_method := some "wallet" } },
          .walletPaid, [], [("charge.succeeded", cid)]⟩ := by
      simp [process_charge, hc, hw, hwpos, hcov, h1, update_charge_status,
        get_charge, hc', strTruthy]
    rw [hpc]
    refine ⟨rfl, rfl, ?_, rfl, ?_⟩
    · exact find_setBy_same Wallet.id db.wallets w.id w _ rfl hwid
    · exact find_setBy_same Charge.id db.charges cid c _ hcid hc'
  · -- (b) partial cover
    intro w hw hwid h0 hlt
    have h1 : update_wallet_balance db w.id w.balance "debit"
        (some ("Partial payment for charge " ++ cid)) (some cid) =
        (some { w with balance := w.balance - w.balance },
         { db with
             wallets := setBy Wallet.id db.wallets w.id
               { w with balance := w.balance - w.balance },
             ledger := db.ledger ++ [⟨w.id, "debit", w.balance,
               some ("Partial payment for charge " ++ cid), some cid,
               w.balance, w.balance - w.balance⟩] }) := by
      simp [update_wallet_balance, hwid]
    have hpc : process_charge stripe db cid =
        external_phase stripe
          { db with
              wallets := setBy Wallet.id db.wallets w.id
                { w with balance := w.balance - w.balance },
              ledger := db.ledger ++ [⟨w.id, "debit", w.balance,
                some ("Partial payment for charge " ++ cid), some cid,
                w.balance, w.balance - w.balance⟩] }
          cid c.amount (c.amount - w.balance) (some w.id) := by
      simp [process_charge, hc, hw, h0, not_le.mpr hlt, h1]
    have hw1 : get_wallet_by_id
        { db with
            wallets := setBy Wallet.id db.wallets w.id
              { w with balance := w.balance - w.balance },
            ledger := db.ledger ++ [⟨w.id, "debit", w.balance,
              some ("Partial payment for charge " ++ cid), some cid,
              w.balance, w.balance - w.balance⟩] } w.id =
        some { w with balance := w.balance - w.balance } :=
      find_setBy_same Wallet.id db.wallets w.id w _ rfl hwid
    rw [hpc]
    obtain ⟨hcalls, tail, hled, htl⟩ := external_phase_ledger_credits stripe _ cid
      c.amount (c.amount - w.balance) (some w.id)
    refine ⟨hcalls, ?_, tail, ?_⟩
    · exact external_phase_wallet_zero stripe _ cid c.amount (c.amount - w.balance)
        w.id _ hw1 (sub_self _) hA
    · rw [hled]
      simp
  · -- (c) absent or non-positive wallet
    intro hcase
    rcases hcase with hnone | ⟨w, hw, hle⟩
    · have hpc : process_charge stripe db cid =
          external_phase stripe db cid c.amount c.amount none := by
        simp [process_charge, hc, hnone]
      rw [hpc]
      obtain ⟨hcalls, tail, hled, htl⟩ := external_phase_ledger_credits stripe db cid
        c.amount c.amount none
      exact ⟨hcalls, tail, hled, htl⟩
    · have hpc : process_charge stripe db cid =
          external_phase stripe db cid c.amount c.amount (some w.id) := by
        simp [process_charge, hc, hw, not_lt.mpr hle]
      rw [hpc]
      obtain ⟨hcalls, tail, hled, htl⟩ := external_phase_ledger_credits stripe db cid
        c.amount c.amount (some w.id)
      exact ⟨hcalls, tail, hled, htl⟩


/-- C1 witness: wallet balance 100 fully covers a charge of 100 — no external
call, settled from the wallet. -/
theorem C1_waterfall_correctness_witness :
    (process_charge (fun _ => StripeResult.failure "unreachable")
        ⟨[⟨"w1", "c1", 100, "USD"⟩], [], [], [],
         [⟨"ch1", "c1", 100, "USD", "pending", none, none, none, none, none, 0⟩],
         []⟩ "ch1").external_calls = [] ∧
    (process_charge (fun _ => StripeResult.failure "unreachable")
        ⟨[⟨"w1", "c1", 100, "USD"⟩], [], [], [],
         [⟨"ch1", "c1", 100, "USD", "pending", none, none, none, none, none, 0⟩],
         []⟩ "ch1").result = .walletPaid := by
  have h := (C1_waterfall_correctness (fun _ => StripeResult.failure "unreachable")
    ⟨[⟨"w1", "c1", 100, "USD"⟩], [], [], [],
     [⟨"ch1", "c1", 100, "USD", "pending", none, none, none, none, none, 0⟩], []⟩
    "ch1" ⟨"ch1", "c1", 100, "USD", "pending", none, none, none, none, none, 0⟩
    (by decide) (by norm_num)).1
    ⟨"w1", "c1", 100, "USD"⟩ (by decide) (by decide) (by norm_num)
  exact ⟨h.1, h.2.1⟩

/-- C4: for every wallet, after every `update_wallet_balance` call with
transaction type `credit` or `debit`, every wallet's balance equals the signed
sum (credits minus debits) of its ledger entries, provided it did before; and
every successful call appends exactly one ledger entry whose
`balance_before` / `balance_after` fields are the found wallet's balance
before the mutation and the returned wallet's balance after it, the returned
wallet being the stored post-state. -/
theorem C4_ledger_balance_invariant (db : DB) (wid : String) (amount : Rat)
    (t : String) (descr ref : Option String)
    (ht : t = "credit" ∨ t = "debit")
    (hu : uniqueWalletIds db) (hinv : walletInv db) :
    walletInv (update_wallet_balance db wid amount t descr ref).2 ∧
    uniqueWalletIds (update_wallet_balance db wid amount t descr ref).2 ∧
    (∀ w', (update_wallet_balance db wid amount t descr ref).1 = some w' →
      ∃ w, get_wallet_by_id db wid = some w ∧
        get_wallet_by_id (update_wallet_balance db wid amount t descr ref).2 wid = some w' ∧
        (update_wallet_balance db wid amount t descr ref).2.ledger =
          db.ledger ++ [⟨wid, t, amount, descr, ref, w.balance, w'.balance⟩]) := by
  cases hf : get_wallet_by_id db wid with
  | none =>
    refine ⟨?_, ?_, ?_⟩ <;> simp [update_wallet_balance, hf]
    · exact hinv
    · exact hu
  | some w =>
    have hwidw : w.id = wid := by
      simpa using List.find?_some (hf : db.wallets.find? (fun x => x.id == wid) = some w)
    rcases ht with rfl | rfl
    · have hred : update_wallet_balance db wid amount "credit" descr ref =
          (some { w with balance := w.balance + amount },
           { db with
               wallets := setBy Wallet.id db.wallets wid { w with balance := w.balance + amount },
               ledger := db.ledger ++
                 [⟨wid, "credit", amount, descr, ref, w.balance, w.balance + amount⟩] }) := by
        simp [update_wallet_balance, hf]
      rw [hred]
      refine ⟨?_, ?_, ?_⟩
      · exact walletInv_step db wid w _ _ hf hu hinv rfl rfl (by simp [entryDelta])
      · exact uniqueIds_setBy _ wid _ hwidw hu
      · intro w' h
        cases h
        exact ⟨w, rfl, find_setBy_same Wallet.id db.wallets wid w _ hwidw hf, rfl⟩
    · by_cases hlt : w.balance < amount
      · refine ⟨?_, ?_, ?_⟩ <;> simp [update_wallet_balance, hf, hlt]
        · exact hinv
        · exact hu
      · have hred : update_wallet_balance db wid amount "debit" descr ref =
            (some { w with balance := w.balance - amount },
             { db with
                 wallets := setBy Wallet.id db.wallets wid { w with balance := w.balance - amount },
                 ledger := db.ledger ++
                   [⟨wid, "debit", amount, descr, ref, w.balance, w.balance - amount⟩] }) := by
          simp [update_wallet_balance, hf, hlt]
        rw [hred]
        refine ⟨?_, ?_, ?_⟩
        · refine walletInv_step db wid w _ _ hf hu hinv rfl rfl ?_
          simp [entryDelta]
          ring
        · exact uniqueIds_setBy _ wid _ hwidw hu
        · intro w' h
          cases h
          exact ⟨w, rfl, find_setBy_same Wallet.id db.wallets wid w _ hwidw hf, rfl⟩

/-- C4 witness: crediting 25 onto a wallet of balance 15 whose ledger already
carries a matching credit entry preserves the invariant and appends exactly the
one new entry with before/after 15 and 40. -/
theorem C4_ledger_balance_invariant_witness :
    walletInv
      (update_wallet_balance
        ⟨[⟨"w1", "c1", 15, "USD"⟩], [⟨"w1", "credit", 15, none, none, 0, 15⟩],
         [], [], [], []⟩ "w1" 25 "credit" none none).2 :=
  (C4_ledger_balance_invariant
    ⟨[⟨"w1", "c1", 15, "USD"⟩], [⟨"w1", "credit", 15, none, none, 0, 15⟩],
     [], [], [], []⟩ "w1" 25 "credit" none none (Or.inl rfl)
    (by simp [uniqueWalletIds])
    (by
      intro w hw
      simp only [List.mem_singleton] at hw
      subst hw
      simp [signedSum, entryDelta])).1

/-- C5: for every wallet and every debit via `update_wallet_balance` with
amount strictly greater than the current balance, the operation fails
(returns `none` rather than a wallet) and the session is unchanged — balance
untouched, no ledger entry appended; and no successful debit drives a
non-negative balance negative. -/
theorem C5_debit_failure_atomicity (db : DB) (wid : String) (amount : Rat)
    (descr ref : Option String) (w : Wallet)
    (hw : get_wallet_by_id db wid = some w) :
    (w.balance < amount →
      update_wallet_balance db wid amount "debit" descr ref = (none, db)) ∧
    (∀ w', (update_wallet_balance db wid amount "debit" descr ref).1 = some w' →
      0 ≤ w.balance → 0 ≤ w'.balance) := by
  unfold update_wallet_balance
  rw [hw]
  constructor
  · intro hlt
    simp [hlt]
  · intro w' h hnn
    by_cases hlt : w.balance < amount
    · simp [hlt] at h
    · simp [hlt] at h
      rw [← h]
      have : amount ≤ w.balance := le_of_not_lt hlt
      simp only []
      linarith

/-- C5 witness: wallet of balance 40, debit request of 100: insufficient
funds, session returned unchanged. -/
theorem C5_debit_failure_atomicity_witness :
    (40 : Rat) < 100 ∧
    update_wallet_balance
        ⟨[⟨"w1", "c1", 40, "USD"⟩], [], [], [], [], []⟩ "w1" 100 "debit" none none =
      (none, ⟨[⟨"w1", "c1", 40, "USD"⟩], [], [], [], [], []⟩) :=
  ⟨by norm_num,
   (C5_debit_failure_atomicity ⟨[⟨"w1", "c1", 40, "USD"⟩], [], [], [], [], []⟩
      "w1" 100 none none ⟨"w1", "c1", 40, "USD"⟩ (by decide)).1 (by norm_num)⟩

/-- C7: webhook durability-first and failure logging.  Dispatching an event
for an existing charge with one configured destination creates exactly one
WebhookLog row carrying status `pending` and the full payload before the HTTP
POST is attempted (the event trace lists the log creation strictly before the
POST); when the destination answers a non-200 status, the log's final status
is `failed` with the HTTP status code captured in the error message; and the
charge table is not modified by the dispatch. -/
theorem C7_webhook_durability (http : String → HttpResult) (cfg url logId : String)
    (now : Int) (db : DB) (et cid : String) (c : Charge) (code : Nat) (text : String)
    (hc : get_charge db cid = some c)
    (hcfg : pySplit cfg ',' = [url])
    (hurl : (pyStrip url == "") = false)
    (hhttp : http (pyStrip url) = .resp code text)
    (hcode : (code == 200) = false)
    (hfresh : ∀ lg ∈ db.webhook_logs, lg.id ≠ logId) :
    send_webhook_event http cfg logId now db et cid =
      (some logId,
       { db with webhook_logs := db.webhook_logs ++
           [{ id := logId, event_type := et, payload := mkPayload et c,
              status := "failed", processed_at := none,
              error_message := some ("HTTP " ++ toString code ++ ": " ++ text) }] },
       [WhEv.logCreated
          { id := logId, event_type := et, payload := mkPayload et c,
            status := "pending", processed_at := none, error_message := none },
        WhEv.posted (pyStrip url) (mkPayload et c)]) ∧
    (send_webhook_event http cfg logId now db et cid).2.1.charges = db.charges := by
  have hfind0 : db.webhook_logs.find? (fun l => l.id == logId) = none :=
    List.find?_eq_none.mpr (fun x hx => by simpa using hfresh x hx)
  have hfind : (db.webhook_logs ++
      [({ id := logId, event_type := et, payload := mkPayload et c,
          status := "pending", processed_at := none,
          error_message := none } : WebhookLog)]).find?
      (fun l => l.id == logId) =
      some { id := logId, event_type := et, payload := mkPayload et c,
             status := "pending", processed_at := none, error_message := none } := by
    rw [List.find?_append, hfind0]
    simp
  have herr : ("HTTP " ++ toString code ++ ": " ++ text) ≠ "" := by
    intro h
    have hl := congrArg String.length h
    have h5 : ("HTTP ").length = 5 := by decide
    have h2 : (": ").length = 2 := by decide
    have h0 : ("" : String).length = 0 := by decide
    simp only [String.length_append, h5, h2, h0] at hl
    omega
  have hset : setBy WebhookLog.id
      (db.webhook_logs ++
        [({ id := logId, event_type := et, payload := mkPayload et c,
            status := "pending", processed_at := none,
            error_message := none } : WebhookLog)]) logId
      { id := logId, event_type := et, payload := mkPayload et c,
        status := "failed", processed_at := none,
        error_message := some ("HTTP " ++ toString code ++ ": " ++ text) } =
      db.webhook_logs ++
        [{ id := logId, event_type := et, payload := mkPayload et c,
           status := "failed", processed_at := none,
           error_message := some ("HTTP " ++ toString code ++ ": " ++ text) }] :=
    setBy_append_singleton WebhookLog.id db.webhook_logs logId _ _ hfresh (by simp)
  have hmain : send_webhook_event http cfg logId now db et cid =
      (some logId,
       { db with webhook_logs := db.webhook_logs ++
           [{ id := logId, event_type := et, payload := mkPayload et c,
              status := "failed", processed_at := none,
              error_message := some ("HTTP " ++ toString code ++ ": " ++ text) }] },
       [WhEv.logCreated
          { id := logId, event_type := et, payload := mkPayload et c,
            status := "pending", processed_at := none, error_message := none },
        WhEv.posted (pyStrip url) (mkPayload et c)]) := by
    simp [send_webhook_event, hc, create_webhook_log, hcfg, wh_deliver, hurl, hhttp,
      hcode, update_webhook_log_status, hfind, strTruthy, herr, hset]
  exact ⟨hmain, by rw [hmain]⟩

/-- C7 witness: a destination answering HTTP 500 leaves the single log row
`failed` with the status code recorded, the charge untouched. -/
theorem C7_webhook_durability_witness :
    send_webhook_event (fun _ => HttpResult.resp 500 "boom") "dest" "log1" 99
        ⟨[], [], [], [],
         [⟨"ch1", "c1", 100, "USD", "failed", some "external", none, none, none, none, 0⟩],
         []⟩ "charge.failed" "ch1" =
      (some "log1",
       ⟨[], [], [], [],
        [⟨"ch1", "c1", 100, "USD", "failed", some "external", none, none, none, none, 0⟩],
        [{ id := "log1", event_type := "charge.failed",
           payload := mkPayload "charge.failed"
             ⟨"ch1", "c1", 100, "USD", "failed", some "external", none, none, none, none, 0⟩,
           status := "failed", processed_at := none,
           error_message := some ("HTTP " ++ toString 500 ++ ": " ++ "boom") }]⟩,
       [WhEv.logCreated
          { id := "log1", event_type := "charge.failed",
            payload := mkPayload "charge.failed"
              ⟨"ch1", "c1", 100, "USD", "failed", some "external", none, none, none, none, 0⟩,
            status := "pending", processed_at := none, error_message := none },
        WhEv.posted (pyStrip "dest")
          (mkPayload "charge.failed"
            ⟨"ch1", "c1", 100, "USD", "failed", some "external", none, none, none, none, 0⟩)]) :=
  (C7_webhook_durability (fun _ => HttpResult.resp 500 "boom") "dest" "dest" "log1" 99
    ⟨[], [], [], [],
     [⟨"ch1", "c1", 100, "USD", "failed", some "external", none, none, none, none, 0⟩], []⟩
    "charge.failed" "ch1"
    ⟨"ch1", "c1", 100, "USD", "failed", some "external", none, none, none, none, 0⟩
    500 "boom" (by decide) (by decide) (by decide) rfl (by decide) (by decide)).1

/-- C9: for every created order with installment count `N` (1 ≤ N ≤ 24),
`create_installments_for_order` generates exactly `N` rows with sequence
numbers 1..N, each carrying the order's per-installment amount, with the due
date of installment `i` equal to creation time plus 30·i days, hence strictly
increasing by 30 days per sequence number. -/
theorem C9_installment_generation (instIds : Nat → String) (now : Int) (db : DB)
    (oid : String) (amt : Rat) (N : Nat) (h1 : 1 ≤ N) (h24 : N ≤ 24) :
    (create_installments_for_order instIds now db oid amt N).1.length = N ∧
    (∀ (k : Nat) (hk : k < (create_installments_for_order instIds now db oid amt N).1.length),
      ((create_installments_for_order instIds now db oid amt N).1[k].installment_number = k + 1 ∧
       (create_installments_for_order instIds now db oid amt N).1[k].amount = amt ∧
       (create_installments_for_order instIds now db oid amt N).1[k].due_date =
         now + 30 * ((k : Int) + 1))) ∧
    (∀ (k : Nat) (hk : k + 1 < (create_installments_for_order instIds now db oid amt N).1.length),
      (create_installments_for_order instIds now db oid amt N).1[k + 1].due_date =
        (create_installments_for_order instIds now db oid amt N).1[k].due_date + 30) := by
  refine ⟨by simp [create_installments_for_order], ?_, ?_⟩
  · intro k hk
    simp only [create_installments_for_order, List.length_map, List.length_range] at hk
    simp [create_installments_for_order, List.getElem_map, List.getElem_range]
  · intro k hk
    simp only [create_installments_for_order, List.length_map, List.length_range] at hk
    simp only [create_installments_for_order, List.getElem_map, List.getElem_range]
    push_cast
    ring

/-- C9 witness: an order with 2 installments of 100 starting at time 7. -/
theorem C9_installment_generation_witness :
    1 ≤ 2 ∧
    (create_installments_for_order (fun n => "i" ++ toString n) 7
        ⟨[], [], [], [], [], []⟩ "o1" 100 2).1.length = 2 :=
  ⟨by norm_num,
   (C9_installment_generation (fun n => "i" ++ toString n) 7
      ⟨[], [], [], [], [], []⟩ "o1" 100 2 (by norm_num) (by norm_num)).1⟩

/-- C8 counterexample: a request supplying per-installment amount 0 with
count 5 and total 100 violates the tolerance (|0·5 − 100| > 0.01), yet it is
not rejected — Python falsiness of `0.0` skips the validation — and an
InstallmentOrder row is created, with the amount recomputed as 100/5 = 20. -/
theorem C8_validation_counterexample :
    (1 : Rat) / 100 < |(0 : Rat) * 5 - 100| ∧
    (create_installment_order_endpoint "ord1" (fun n => "inst" ++ toString n) 0
        ⟨[], [], [], [], [], []⟩ ⟨"c", 100, "USD", 5, some 0⟩).2.orders.map
      InstallmentOrder.installment_amount = [20] := by
  constructor
  · norm_num
  · norm_num [create_installment_order_endpoint, crud_create_installment_order,
      create_installments_for_order, ratTruthy]

/-- C8 amended: when the caller supplies a nonzero per-installment amount `p`
with |p·count − total| > 0.01, the request is rejected with HTTP 400 and no
row of any kind is created (the session is unchanged); when the
per-installment amount is omitted — or zero, which Python falsiness treats as
omitted — it is computed as total/count and the order row is created. -/
theorem C8_validation_amended (orderId : String) (instIds : Nat → String)
    (now : Int) (db : DB) (od : OrderCreate) :
    (∀ p, od.installment_amount = some p → p ≠ 0 →
      (1 : Rat) / 100 < |p * (od.installment_count : Rat) - od.amount| →
      create_installment_order_endpoint orderId instIds now db od =
        (.badRequest "Installment amount * count must equal total amount", db)) ∧
    (od.installment_amount = none →
      (create_installment_order_endpoint orderId instIds now db od).2.orders =
        db.orders ++
          [{ id := orderId, customer_id := od.customer_id, amount := od.amount,
             currency := od.currency, installment_count := od.installment_count,
             installment_amount := od.amount / (od.installment_count : Rat),
             status := "pending" }]) := by
  constructor
  · intro p hp hpz htol
    have hb : (p == 0) = false := by simpa using hpz
    have htol2 : (100 : Rat)⁻¹ < |p * (od.installment_count : Rat) - od.amount| := by
      rwa [← one_div]
    simp [create_installment_order_endpoint, hp, ratTruthy, hb, htol2]
  · intro h
    simp [create_installment_order_endpoint, h, ratTruthy,
      crud_create_installment_order, create_installments_for_order]

/-- C8 witness: per-installment 30 × count 5 = 150 ≠ 100 is rejected with the
session unchanged. -/
theorem C8_validation_amended_witness :
    create_installment_order_endpoint "ord1" (fun n => "inst" ++ toString n) 0
        ⟨[], [], [], [], [], []⟩ ⟨"c", 100, "USD", 5, some 30⟩ =
      (.badRequest "Installment amount * count must equal total amount",
       ⟨[], [], [], [], [], []⟩) :=
  (C8_validation_amended "ord1" (fun n => "inst" ++ toString n) 0
    ⟨[], [], [], [], [], []⟩ ⟨"c", 100, "USD", 5, some 30⟩).1
    30 rfl (by norm_num) (by norm_num)

/-- C2 (code bug): compensation on external failure does not restore the
balance.  Wallet balance 40, charge 100, external processor fails: the refund
branch credits `wallet.balance` — the live post-debit balance, 0 — instead of
the debited 40, so the final balance is 0 rather than the pre-debit 40, and
the compensating credit ledger entry (which does reference the charge id) has
amount 0; the charge does end `failed` with payment method `external` after an
external call for 60. -/
theorem C2_compensation_not_restored :
    (get_wallet_by_id (process_charge (fun _ => StripeResult.failure "card_declined")
        ⟨[⟨"w1", "cust1", 40, "USD"⟩], [], [], [],
         [⟨"ch1", "cust1", 100, "USD", "pending", none, none, none, none, none, 0⟩],
         []⟩ "ch1").db "w1").map Wallet.balance = some 0 ∧
    (process_charge (fun _ => StripeResult.failure "card_declined")
        ⟨[⟨"w1", "cust1", 40, "USD"⟩], [], [], [],
         [⟨"ch1", "cust1", 100, "USD", "pending", none, none, none, none, none, 0⟩],
         []⟩ "ch1").db.ledger.map
      (fun e => (e.transaction_type, e.amount, e.reference_id)) =
      [("debit", (40 : Rat), some "ch1"), ("credit", 0, some "ch1")] ∧
    (get_charge (process_charge (fun _ => StripeResult.failure "card_declined")
        ⟨[⟨"w1", "cust1", 40, "USD"⟩], [], [], [],
         [⟨"ch1", "cust1", 100, "USD", "pending", none, none, none, none, none, 0⟩],
         []⟩ "ch1").db "ch1").map (fun x => (x.status, x.payment_method)) =
      some ("failed", some "external") ∧
    (process_charge (fun _ => StripeResult.failure "card_declined")
        ⟨[⟨"w1", "cust1", 40, "USD"⟩], [], [], [],
         [⟨"ch1", "cust1", 100, "USD", "pending", none, none, none, none, none, 0⟩],
         []⟩ "ch1").external_calls = [60] := by
  refine ⟨?_, ?_, ?_, ?_⟩ <;>
    norm_num [process_charge, external_phase, update_wallet_balance,
      update_charge_status, get_charge, get_wallet, get_wallet_by_id, setBy,
      strTruthy, List.find?, show ("debit" : String) ≠ "credit" from by decide,
      show ("external" : String) ≠ "" from by decide,
      show ("wallet" : String) ≠ "" from by decide]

/-- C3 (code bug): settlement is not idempotent on terminal charges.
Charge "ch1" is already `succeeded` (settled from the wallet, which is now
empty); re-submitting the same charge id to `process_charge` calls the
external processor again for the full 100, appends a fresh ledger entry (the
0-amount refund credit), and `update_charge_status` silently overwrites the
terminal status `succeeded` with `failed`. -/
theorem C3_resubmission_not_idempotent :
    (process_charge (fun _ => StripeResult.failure "declined")
        ⟨[⟨"w1", "cust1", 0, "USD"⟩], [], [], [],
         [⟨"ch1", "cust1", 100, "USD", "succeeded", some "wallet", none, none, none, none, 0⟩],
         []⟩ "ch1").external_calls = [100] ∧
    (process_charge (fun _ => StripeResult.failure "declined")
        ⟨[⟨"w1", "cust1", 0, "USD"⟩], [], [], [],
         [⟨"ch1", "cust1", 100, "USD", "succeeded", some "wallet", none, none, none, none, 0⟩],
         []⟩ "ch1").db.ledger.length = 1 ∧
    (get_charge (process_charge (fun _ => StripeResult.failure "declined")
        ⟨[⟨"w1", "cust1", 0, "USD"⟩], [], [], [],
         [⟨"ch1", "cust1", 100, "USD", "succeeded", some "wallet", none, none, none, none, 0⟩],
         []⟩ "ch1").db "ch1").map Charge.status = some "failed" := by
  refine ⟨?_, ?_, ?_⟩ <;>
    norm_num [process_charge, external_phase, update_wallet_balance,
      update_charge_status, get_charge, get_wallet, get_wallet_by_id, setBy,
      strTruthy, List.find?, show ("debit" : String) ≠ "credit" from by decide,
      show ("external" : String) ≠ "" from by decide,
      show ("wallet" : String) ≠ "" from by decide]

/-- The one-order/one-due-installment scenario used to exhibit the missing
installment-status transition. -/
def dueScenarioDB : DB :=
  ⟨[], [], [⟨"o1", "cust1", 100, "USD", 1, 100, "pending"⟩],
   [⟨"i1", "o1", 1, 100, 10, "pending"⟩], [], []⟩

/-- The state after the first scheduler run over `dueScenarioDB` (one charge
"chA0" created for installment "i1" and queued). -/
def dueScenarioDB1 : DB :=
  ((process_due_installments (fun _ => "chA0") 20 dueScenarioDB).getD
    (dueScenarioDB, [])).1

/-- C6 (code bug): settling a charge never flips its installment's status.
After the first scheduler run creates charge "chA0" for pending installment
"i1" and `process_charge` settles it `succeeded`, the installment is still
`pending`, so a second `process_due_installments` run at the same instant
re-selects it and creates a second charge for the same installment. -/
theorem C6_installment_status_not_flipped :
    (process_due_installments (fun _ => "chA0") 20 dueScenarioDB).map
      (fun p => p.2) = some ["chA0"] ∧
    (get_charge (process_charge (fun _ => StripeResult.success "ext_1")
        dueScenarioDB1 "chA0").db "chA0").map Charge.status = some "succeeded" ∧
    (process_charge (fun _ => StripeResult.success "ext_1")
        dueScenarioDB1 "chA0").db.installments.map Installment.status = ["pending"] ∧
    (process_due_installments (fun _ => "chB0") 20
        (process_charge (fun _ => StripeResult.success "ext_1")
          dueScenarioDB1 "chA0").db).map
      (fun p => (p.1.charges.filter (fun ch => ch.installment_id == some "i1")).length) =
      some 2 := by
  refine ⟨?_, ?_, ?_, ?_⟩ <;>
    norm_num [dueScenarioDB, dueScenarioDB1, process_due_installments, process_due_go,
      get_due_installments, get_installment_order, create_charge, process_charge,
      external_phase, update_wallet_balance, update_charge_status, get_charge,
      get_wallet, get_wallet_by_id, setBy, strTruthy, List.find?, List.filter,
      show ("debit" : String) ≠ "credit" from by decide,
      show ("external" : String) ≠ "" from by decide,
      show ("ext_1" : String) ≠ "" from by decide,
      show ("wallet" : String) ≠ "" from by decide]

/-- C10: `schedule_installment_charge` passes its installment id to
`get_installments_by_order`, which filters on `order_id`; assuming foreign-key
integrity (every installment's `order_id` is the id of a stored order), any id
that is not some order's id yields the structured "Installment not found"
error and leaves the session — in particular the charge table — unchanged.
The first-installment task scheduled at order creation passes a fresh
installment uuid, which is no order id, so it never creates a charge. -/
theorem C10_schedule_lookup_mismatch (fresh : String) (now : Int) (db : DB)
    (iid : String)
    (hfk : ∀ inst ∈ db.installments, ∃ o ∈ db.orders, inst.order_id = o.id)
    (hne : ∀ o ∈ db.orders, o.id ≠ iid) :
    schedule_installment_charge fresh now db iid =
      (.error "Installment not found", db) := by
  have hempty : get_installments_by_order db iid = [] := by
    unfold get_installments_by_order
    rw [List.filter_eq_nil_iff]
    intro i hi
    obtain ⟨o, ho, heq⟩ := hfk i hi
    simpa [heq] using hne o ho
  unfold schedule_installment_charge
  rw [hempty]

/-- C10 witness: the fresh first installment's own id "i1" matches no order
id, so scheduling it finds nothing and creates no charge. -/
theorem C10_schedule_lookup_mismatch_witness :
    schedule_installment_charge "ch_new" 0
        ⟨[], [], [⟨"o1", "c1", 100, "USD", 1, 100, "pending"⟩],
         [⟨"i1", "o1", 1, 100, 30, "pending"⟩], [], []⟩ "i1" =
      (.error "Installment not found",
        ⟨[], [], [⟨"o1", "c1", 100, "USD", 1, 100, "pending"⟩],
         [⟨"i1", "o1", 1, 100, 30, "pending"⟩], [], []⟩) :=
  C10_schedule_lookup_mismatch "ch_new" 0
    ⟨[], [], [⟨"o1", "c1", 100, "USD", 1, 100, "pending"⟩],
     [⟨"i1", "o1", 1, 100, 30, "pending"⟩], [], []⟩ "i1"
    (by decide) (by decide)

end InstallmentAPI
